import Mathlib

/-!
Verification of the endpoint pool and selection engine of
`services/proxy_rotator.py` against its natural-language specification.

The Python source is embedded shallowly: machine floats become exact
rationals (`ℚ`), extended with an explicit `+∞` point (`EFloat`) because
the health-check smoothing can produce `float('inf')`; dataclasses become
structures; mutation becomes explicit state passing.
-/

namespace ProxyRotator

/-- Health enum from the source (`ProxyHealth`): EXCELLENT=4, GOOD=3,
DEGRADED=2, POOR=1, DEAD=0. -/
inductive ProxyHealth where
  | dead
  | poor
  | degraded
  | good
  | excellent
deriving DecidableEq, Repr

/-- The numeric `.value` of the Python enum member. -/
def ProxyHealth.value : ProxyHealth → ℕ
  | .dead => 0
  | .poor => 1
  | .degraded => 2
  | .good => 3
  | .excellent => 4

/-- The ten selection-policy tags (`SchoolBlockerType`). -/
inductive SchoolBlockerType where
  | iboss
  | securely
  | goguardian
  | lanschool
  | lightspeed
  | barkly
  | smoothwall
  | fortiguard
  | sonicwall
  | paloalto
deriving DecidableEq, Repr

/-- A Python float that is either an exact finite value or `+∞`
(`float('inf')`).  `NaN` never arises along the embedded code paths
(no subtraction of infinities, no `0 * inf`), so it is not modelled. -/
inductive EFloat where
  | fin (q : ℚ)
  | inf
deriving DecidableEq, Repr

/-- Comparison `x <= t` on Python floats, `x` possibly `+∞`, `t` finite. -/
def EFloat.leQ : EFloat → ℚ → Bool
  | .fin q, t => decide (q ≤ t)
  | .inf, _ => false

/-- Comparison `x < t` on Python floats, `x` possibly `+∞`, `t` finite. -/
def EFloat.ltQ : EFloat → ℚ → Bool
  | .fin q, t => decide (q < t)
  | .inf, _ => false

/-- Smoothing `old * 0.7 + new * 0.3` in IEEE arithmetic on nonnegative operands:
if either operand is `+∞` the result is `+∞` (finite positive scaling and
addition preserve `+∞`; the operands are probe latencies, never `NaN`). -/
def EFloat.ema : EFloat → EFloat → EFloat
  | .fin a, .fin b => .fin (0.7 * a + 0.3 * b)
  | _, _ => .inf

/-- Score term `max(0, 1 - latency/5000)` in IEEE arithmetic: at `latency = +∞` the
inner expression is `-∞` and the `max` clamps it to `0`. -/
def EFloat.latencyScore : EFloat → ℚ
  | .fin q => max 0 (1 - q / 5000)
  | .inf => 0

/-- The `ResidentialProxy` dataclass from the source.  `latency` is the
`latency` field (milliseconds, possibly `+∞` after failed probe cycles),
`last_used` abstracts the `datetime` timestamp as a rational instant. -/
structure ResidentialProxy where
  ip : String
  port : ℕ
  state : String
  city : String
  isp : String
  asn : ℕ
  latency : EFloat
  success_rate : ℚ
  last_used : ℚ
  health : ProxyHealth
  protocol : String := "http"
  username : Option String := none
  password : Option String := none
deriving DecidableEq, Repr

/-- Table `preferred_isps` of the `blocker_optimizations` dict inside
`ResidentialProxy._calculate_blocker_score`; tags absent from the dict
get `[]` (the `.get(blocker_type, {})` / `.get('preferred_isps', [])`
defaults). -/
def blockerPreferred : SchoolBlockerType → List String
  | .iboss => ["Comcast", "AT&T", "Verizon", "Charter", "Cox"]
  | .goguardian => ["Spectrum", "Xfinity", "Optimum", "Mediacom", "Frontier"]
  | .securely => ["Cox", "Suddenlink", "Cable One", "WOW!", "RCN"]
  | .lanschool => ["AT&T", "Verizon", "CenturyLink", "Windstream", "Frontier"]
  | _ => []

/-- Table `avoid_isps` of the same dict, with the same defaulting. -/
def blockerAvoid : SchoolBlockerType → List String
  | .iboss => ["Google Fiber", "CenturyLink"]
  | .goguardian => ["Verizon Business", "AT&T Business"]
  | .securely => ["CenturyLink", "Frontier Communications"]
  | .lanschool => ["Comcast Business", "Charter Business"]
  | _ => []

/-- Embeds `ResidentialProxy._calculate_blocker_score`.  `none` models passing
`None` (the `if not blocker_type` early return). -/
def ResidentialProxy.calculate_blocker_score (p : ResidentialProxy)
    (blocker_type : Option SchoolBlockerType) : ℚ :=
  match blocker_type with
  | none => 0.5
  | some bt =>
    if p.isp ∈ blockerPreferred bt then 1.0
    else if p.isp ∈ blockerAvoid bt then 0.0
    else 0.5

/-- Embeds `ResidentialProxy.score`: weighted sum
`latency_score * 0.3 + success_rate * 0.4 + health.value * 0.25 * 0.2
 + blocker_score * 0.1`. -/
def ResidentialProxy.score (p : ResidentialProxy)
    (blocker_type : Option SchoolBlockerType) : ℚ :=
  let latency_weight : ℚ := 0.3
  let success_weight : ℚ := 0.4
  let health_weight : ℚ := 0.2
  let blocker_weight : ℚ := 0.1
  let latency_score := p.latency.latencyScore
  let blocker_score := p.calculate_blocker_score blocker_type
  latency_score * latency_weight +
    p.success_rate * success_weight +
    (p.health.value : ℚ) * 0.25 * health_weight +
    blocker_score * blocker_weight

/-- The rotator's registry state: `proxies_by_state` (a Python dict,
insertion-ordered, modelled as an association list) and the flat
`proxy_pool` list. -/
structure AdvancedProxyRotator where
  proxies_by_state : List (String × List ResidentialProxy)
  proxy_pool : List ResidentialProxy
deriving DecidableEq, Repr

/-- The viability filter of `get_optimal_proxy`:
`p.health.value >= ProxyHealth.DEGRADED.value and p.latency <= target_latency`. -/
def viabilityFilter (target_latency : ℚ) (p : ResidentialProxy) : Bool :=
  decide (ProxyHealth.degraded.value ≤ p.health.value) && p.latency.leQ target_latency

/-- The relaxed fallback filter of `get_optimal_proxy`:
`p.health.value >= ProxyHealth.DEGRADED.value` alone. -/
def healthOnlyFilter (p : ResidentialProxy) : Bool :=
  decide (ProxyHealth.degraded.value ≤ p.health.value)

/-- The earliest element of `p :: l` attaining the maximal value of `f`
(later elements displace the current best only on a strictly greater
value).  This is the head of the list after Python's
`sort(reverse=True, key=f)`: `list.sort` is stable, and with
`reverse=True` elements with equal keys keep their original relative
order, so position 0 holds the first element of maximal key. -/
def firstMaxFrom (f : ResidentialProxy → ℚ) (p : ResidentialProxy) :
    List ResidentialProxy → ResidentialProxy
  | [] => p
  | q :: rest =>
    let m := firstMaxFrom f q rest
    if f p < f m then m else p

/-- Selection step `scored_proxies.sort(reverse=True, key=score)` then
`scored_proxies[0][1]`,
over a possibly empty list (`none` models the empty case, which the
caller excludes by raising beforehand). -/
def selectFirstMax (f : ResidentialProxy → ℚ) :
    List ResidentialProxy → Option ResidentialProxy
  | [] => none
  | p :: l => some (firstMaxFrom f p l)

/-- Python `str.lower()` restricted to ASCII region keys: lower-case every
character of the string. -/
def pyLower (s : String) : String := ⟨s.data.map Char.toLower⟩

/-- Set `candidate_proxies` of `get_optimal_proxy`: the hinted region's bucket
when `target_state` is truthy (non-`None`, non-empty) and
`target_state.lower()` is a key of `proxies_by_state`, else the whole
pool. -/
def AdvancedProxyRotator.candidates (r : AdvancedProxyRotator)
    (target_state : Option String) : List ResidentialProxy :=
  match target_state with
  | some ts =>
    if ts = "" then r.proxy_pool
    else
      match r.proxies_by_state.lookup (pyLower ts) with
      | some ps => ps
      | none => r.proxy_pool
  | none => r.proxy_pool

/-- Set `viable_proxies` of `get_optimal_proxy` after the fallback step: the
candidates passing the health-and-latency filter, or — when that is
empty — the whole pool under the health-only filter. -/
def AdvancedProxyRotator.viableSet (r : AdvancedProxyRotator)
    (target_state : Option String) (target_latency : ℚ) :
    List ResidentialProxy :=
  if ((r.candidates target_state).filter (viabilityFilter target_latency)).isEmpty
  then r.proxy_pool.filter healthOnlyFilter
  else (r.candidates target_state).filter (viabilityFilter target_latency)

/-- Embeds `AdvancedProxyRotator.get_optimal_proxy` as a pure selection
(the `last_used` write is modelled separately by `get_optimal_proxy_run`).
`none` models `raise Exception("No viable proxies available")`. -/
def AdvancedProxyRotator.get_optimal_proxy (r : AdvancedProxyRotator)
    (target_state : Option String) (blocker_type : Option SchoolBlockerType)
    (target_latency : ℚ) : Option ResidentialProxy :=
  selectFirstMax (fun p => p.score blocker_type)
    (r.viableSet target_state target_latency)

/-- The `best_proxy.last_used = datetime.now()` mutation: because the
winner object is aliased by its region bucket and by the flat pool, the
write is visible through both views. -/
def markUsed (winner : ResidentialProxy) (now : ℚ) (p : ResidentialProxy) :
    ResidentialProxy :=
  if p = winner then { p with last_used := now } else p

/-- Embeds `get_optimal_proxy` with its side effect: returns the winner (with its
updated `last_used`) together with the updated registry state. -/
def AdvancedProxyRotator.get_optimal_proxy_run (r : AdvancedProxyRotator)
    (target_state : Option String) (blocker_type : Option SchoolBlockerType)
    (target_latency : ℚ) (now : ℚ) :
    Option (ResidentialProxy × AdvancedProxyRotator) :=
  match r.get_optimal_proxy target_state blocker_type target_latency with
  | none => none
  | some w =>
    some ({ w with last_used := now },
      { proxies_by_state :=
          r.proxies_by_state.map (fun kv => (kv.1, kv.2.map (markUsed w now))),
        proxy_pool := r.proxy_pool.map (markUsed w now) })

/-- Table lookup `blocker_latencies.get(blocker_type, 200.0)` of
`get_proxy_for_school_blocker`. -/
def blocker_latencies : SchoolBlockerType → ℚ
  | .iboss => 150
  | .goguardian => 200
  | .securely => 180
  | .lanschool => 250
  | _ => 200

/-- Embeds `AdvancedProxyRotator.get_proxy_for_school_blocker` (pure selection
part). -/
def AdvancedProxyRotator.get_proxy_for_school_blocker
    (r : AdvancedProxyRotator) (blocker_type : SchoolBlockerType)
    (target_state : Option String) : Option ResidentialProxy :=
  r.get_optimal_proxy target_state (some blocker_type)
    (blocker_latencies blocker_type)

/-- The per-endpoint metric-and-health update performed by
`health_check_proxy` once the probe battery has finished, as a function of
the probe outcome: `attempted = len(test_urls)`, `success_count`, and
`total_latency` (sum over successful probes, in ms).
`success_rate = success_count / len(test_urls) if test_urls else 0`;
`avg_latency = total_latency / success_count if success_count else inf`;
then the two smoothing writes and the health reclassification, whose
conditions read the local raw `success_rate` but the already-updated
`proxy.latency`. -/
def healthCheckUpdate (p : ResidentialProxy) (attempted success_count : ℕ)
    (total_latency : ℚ) : ResidentialProxy :=
  let success_rate : ℚ :=
    if attempted = 0 then 0 else (success_count : ℚ) / (attempted : ℚ)
  let avg_latency : EFloat :=
    if success_count = 0 then .inf
    else .fin (total_latency / (success_count : ℚ))
  let new_latency := p.latency.ema avg_latency
  let new_success_rate := 0.7 * p.success_rate + 0.3 * success_rate
  let new_health : ProxyHealth :=
    if decide ((0.9 : ℚ) ≤ success_rate) && new_latency.ltQ 300 then .excellent
    else if decide ((0.7 : ℚ) ≤ success_rate) && new_latency.ltQ 600 then .good
    else if decide ((0.5 : ℚ) ≤ success_rate) then .degraded
    else .poor
  { p with latency := new_latency,
           success_rate := new_success_rate,
           health := new_health }

/-- The region keys in registry insertion order,
`list(self.proxies_by_state.keys())`. -/
def AdvancedProxyRotator.stateKeys (r : AdvancedProxyRotator) : List String :=
  r.proxies_by_state.map Prod.fst

/-- Expression `states or list(self.proxies_by_state.keys())` of
`rotate_proxy_chain`: `None` and the empty list are both falsy. -/
def AdvancedProxyRotator.chainBaseStates (r : AdvancedProxyRotator)
    (states : Option (List String)) : List String :=
  match states with
  | some (s :: ss) => s :: ss
  | _ => r.stateKeys

/-- List `available_states` of one `rotate_proxy_chain` iteration after its
empty-reset: the not-yet-used candidate regions, or — when all are used —
the full registry key list (`list(self.proxies_by_state.keys())`). -/
def chainAvail (r : AdvancedProxyRotator) (states : Option (List String))
    (used : List String) : List String :=
  if ((r.chainBaseStates states).filter (fun s => decide (s ∉ used))).isEmpty
  then r.stateKeys
  else (r.chainBaseStates states).filter (fun s => decide (s ∉ used))

/-- One pass of the `rotate_proxy_chain` loop body plus the remaining
iterations.  `picks i` resolves the `random.choice(available_states)` of
iteration `i` to the index `picks i % available_states.length`.  A `none`
result models an exception escaping the loop (empty `random.choice` or
`get_optimal_proxy` raising). -/
def rotateChainAux (r : AdvancedProxyRotator)
    (blocker_type : Option SchoolBlockerType) (states : Option (List String))
    (picks : ℕ → ℕ) :
    ℕ → ℕ → List String → List ResidentialProxy →
    Option (List ResidentialProxy)
  | 0, _, _, acc => some acc.reverse
  | n + 1, i, used, acc =>
    match (chainAvail r states used).get?
        (picks i % (chainAvail r states used).length) with
    | none => none
    | some target =>
      match r.get_optimal_proxy (some target) blocker_type 200 with
      | none => none
      | some p =>
        rotateChainAux r blocker_type states picks n (i + 1) (target :: used)
          (p :: acc)

/-- Embeds `AdvancedProxyRotator.rotate_proxy_chain` (the chain value; the
`last_used` writes of the inner selections are not needed by any claim
about the chain itself). -/
def AdvancedProxyRotator.rotate_proxy_chain (r : AdvancedProxyRotator)
    (chain_length : ℕ) (states : Option (List String))
    (blocker_type : Option SchoolBlockerType) (picks : ℕ → ℕ) :
    Option (List ResidentialProxy) :=
  rotateChainAux r blocker_type states picks chain_length 0 [] []

/-- The health classifier of the spec (§4.4 step 5) as a standalone
function of a success rate and a latency, spelled exactly as the
threshold ladder: `sr ≥ 0.9 ∧ lat < 300 → EXCELLENT`;
`sr ≥ 0.7 ∧ lat < 600 → GOOD`; `sr ≥ 0.5 → DEGRADED`; else `POOR`.
Comparing it with `healthCheckUpdate` settles which metrics the source
actually feeds into the ladder. -/
def classifyHealth (sr : ℚ) (lat : EFloat) : ProxyHealth :=
  if decide ((0.9 : ℚ) ≤ sr) && lat.ltQ 300 then .excellent
  else if decide ((0.7 : ℚ) ≤ sr) && lat.ltQ 600 then .good
  else if decide ((0.5 : ℚ) ≤ sr) then .degraded
  else .poor

/-- All fields of the two records agree except possibly `last_used`. -/
def sameExceptLastUsed (a b : ResidentialProxy) : Prop :=
  a.ip = b.ip ∧ a.port = b.port ∧ a.state = b.state ∧ a.city = b.city ∧
  a.isp = b.isp ∧ a.asn = b.asn ∧ a.latency = b.latency ∧
  a.success_rate = b.success_rate ∧ a.health = b.health ∧
  a.protocol = b.protocol ∧ a.username = b.username ∧ a.password = b.password

/-- The identity, credential and `last_used` fields of the two records
agree (only the live metrics `latency`, `success_rate`, `health` may
differ). -/
def sameIdentity (a b : ResidentialProxy) : Prop :=
  a.ip = b.ip ∧ a.port = b.port ∧ a.state = b.state ∧ a.city = b.city ∧
  a.isp = b.isp ∧ a.asn = b.asn ∧ a.last_used = b.last_used ∧
  a.protocol = b.protocol ∧ a.username = b.username ∧ a.password = b.password

/-- The registry invariant of `_initialize_residential_proxies`: every
endpoint of a region bucket is also in the flat `proxy_pool`. -/
def AdvancedProxyRotator.bucketsSubPool (r : AdvancedProxyRotator) : Prop :=
  ∀ kv ∈ r.proxies_by_state, ∀ p ∈ kv.2, p ∈ r.proxy_pool

section ConcreteInstances

/-- A healthy endpoint whose latency exceeds the default 200 ms ceiling. -/
def pT : ResidentialProxy :=
  { ip := "74.198.1.1", port := 8080, state := "texas", city := "Houston",
    isp := "Comcast", asn := 1000, latency := .fin 300, success_rate := 0.5,
    last_used := 0, health := .good }

/-- A fast, excellent endpoint in a different region than `pT`. -/
def pO : ResidentialProxy :=
  { ip := "96.1.1.1", port := 8080, state := "ohio", city := "Columbus",
    isp := "Cox", asn := 1001, latency := .fin 100, success_rate := 0.9,
    last_used := 0, health := .excellent }

/-- Registry holding `pT` in region `texas` and `pO` in region `ohio`. -/
def r2 : AdvancedProxyRotator :=
  { proxies_by_state := [("texas", [pT]), ("ohio", [pO])],
    proxy_pool := [pT, pO] }

/-- First-inserted endpoint: higher latency, compensating success rate. -/
def pA : ResidentialProxy :=
  { ip := "1.1.1.1", port := 8080, state := "alpha", city := "A",
    isp := "Comcast", asn := 1, latency := .fin 200, success_rate := 0.515,
    last_used := 0, health := .good }

/-- Second-inserted endpoint: lower latency, same overall score as `pA`. -/
def pB : ResidentialProxy :=
  { ip := "2.2.2.2", port := 8080, state := "beta", city := "B",
    isp := "Comcast", asn := 2, latency := .fin 100, success_rate := 0.5,
    last_used := 0, health := .good }

/-- Registry with the two score-tied endpoints `pA` (first) and `pB`. -/
def r3 : AdvancedProxyRotator :=
  { proxies_by_state := [("alpha", [pA]), ("beta", [pB])],
    proxy_pool := [pA, pB] }

/-- Endpoint `pA` after a selection stamps its `last_used` at instant `5`. -/
def pA5 : ResidentialProxy := { pA with last_used := 5 }

/-- The registry `r3` after that selection's `last_used` write. -/
def r3' : AdvancedProxyRotator :=
  { proxies_by_state := [("alpha", [pA5]), ("beta", [pB])],
    proxy_pool := [pA5, pB] }

/-- Endpoint with prior `success_rate = 0` and low latency, used to
separate raw-rate from smoothed-rate health classification. -/
def p4 : ResidentialProxy :=
  { ip := "3.3.3.3", port := 8080, state := "gamma", city := "C",
    isp := "Cox", asn := 3, latency := .fin 100, success_rate := 0,
    last_used := 0, health := .dead }

/-- Region `a` endpoint failing the 200 ms ceiling. -/
def pA6 : ResidentialProxy :=
  { ip := "4.4.4.4", port := 8080, state := "a", city := "A",
    isp := "Comcast", asn := 4, latency := .fin 300, success_rate := 0.5,
    last_used := 0, health := .good }

/-- Region `b` endpoint that dominates every score comparison. -/
def pB6 : ResidentialProxy :=
  { ip := "5.5.5.5", port := 8080, state := "b", city := "B",
    isp := "Cox", asn := 5, latency := .fin 100, success_rate := 0.9,
    last_used := 0, health := .excellent }

/-- Two-region registry for the chain-builder scenarios. -/
def r6 : AdvancedProxyRotator :=
  { proxies_by_state := [("a", [pA6]), ("b", [pB6])],
    proxy_pool := [pA6, pB6] }

/-- Endpoint with the spec scenario's prior metrics
(`success_rate = 0.5`, `latency_ms = 200`). -/
def p7 : ResidentialProxy :=
  { ip := "6.6.6.6", port := 8080, state := "d", city := "D",
    isp := "Cox", asn := 6, latency := .fin 200, success_rate := 0.5,
    last_used := 0, health := .good }

/-- Endpoint whose latency has already been driven to `+∞`. -/
def pInf : ResidentialProxy :=
  { ip := "7.7.7.7", port := 8080, state := "e", city := "E",
    isp := "Cox", asn := 7, latency := .inf, success_rate := 0.95,
    last_used := 0, health := .poor }

/-- Registry in which every endpoint is `DEAD`. -/
def rDead : AdvancedProxyRotator :=
  { proxies_by_state :=
      [("a", [{ pA6 with health := .dead }]),
       ("b", [{ pB6 with health := .dead }])],
    proxy_pool := [{ pA6 with health := .dead }, { pB6 with health := .dead }] }

end ConcreteInstances

/-! ### Helper lemmas about the selection primitives -/

theorem firstMaxFrom_cons (f : ResidentialProxy → ℚ) (p q : ResidentialProxy)
    (rest : List ResidentialProxy) :
    firstMaxFrom f p (q :: rest) =
      if f p < f (firstMaxFrom f q rest) then firstMaxFrom f q rest else p :=
  rfl

theorem firstMaxFrom_mem (f : ResidentialProxy → ℚ) (p : ResidentialProxy)
    (l : List ResidentialProxy) : firstMaxFrom f p l ∈ p :: l := by
  induction l generalizing p with
  | nil => simp [firstMaxFrom]
  | cons q rest ih =>
    rw [firstMaxFrom_cons]
    by_cases h : f p < f (firstMaxFrom f q rest)
    · rw [if_pos h]
      exact List.mem_cons_of_mem p (ih q)
    · rw [if_neg h]
      exact List.mem_cons_self _ _

theorem le_firstMaxFrom (f : ResidentialProxy → ℚ) (p : ResidentialProxy)
    (l : List ResidentialProxy) :
    ∀ x ∈ p :: l, f x ≤ f (firstMaxFrom f p l) := by
  induction l generalizing p with
  | nil =>
    intro x hx
    rw [List.mem_singleton] at hx
    exact hx ▸ le_refl _
  | cons q rest ih =>
    intro x hx
    rw [firstMaxFrom_cons]
    by_cases h : f p < f (firstMaxFrom f q rest)
    · rw [if_pos h]
      rcases List.mem_cons.mp hx with rfl | hx'
      · exact le_of_lt h
      · exact ih q x hx'
    · rw [if_neg h]
      rcases List.mem_cons.mp hx with rfl | hx'
      · exact le_refl _
      · exact le_trans (ih q x hx') (not_lt.mp h)

theorem firstMaxFrom_split (f : ResidentialProxy → ℚ) (p : ResidentialProxy)
    (l : List ResidentialProxy) :
    ∃ l₁ l₂, p :: l = l₁ ++ firstMaxFrom f p l :: l₂ ∧
      ∀ q ∈ l₁, f q < f (firstMaxFrom f p l) := by
  induction l generalizing p with
  | nil => exact ⟨[], [], rfl, by simp⟩
  | cons q rest ih =>
    rw [firstMaxFrom_cons]
    by_cases h : f p < f (firstMaxFrom f q rest)
    · obtain ⟨l₁, l₂, heq, hlt⟩ := ih q
      rw [if_pos h]
      refine ⟨p :: l₁, l₂, ?_, ?_⟩
      · rw [List.cons_append, ← heq]
      · intro x hx
        rcases List.mem_cons.mp hx with rfl | hx'
        · exact h
        · exact hlt x hx'
    · rw [if_neg h]
      exact ⟨[], q :: rest, rfl, by simp⟩

theorem selectFirstMax_eq_none_iff (f : ResidentialProxy → ℚ)
    (l : List ResidentialProxy) : selectFirstMax f l = none ↔ l = [] := by
  cases l <;> simp [selectFirstMax]

theorem selectFirstMax_mem {f : ResidentialProxy → ℚ}
    {l : List ResidentialProxy} {w : ResidentialProxy}
    (h : selectFirstMax f l = some w) : w ∈ l := by
  cases l with
  | nil => simp [selectFirstMax] at h
  | cons p rest =>
    simp only [selectFirstMax, Option.some.injEq] at h
    exact h ▸ firstMaxFrom_mem f p rest

theorem le_selectFirstMax {f : ResidentialProxy → ℚ}
    {l : List ResidentialProxy} {w : ResidentialProxy}
    (h : selectFirstMax f l = some w) : ∀ q ∈ l, f q ≤ f w := by
  cases l with
  | nil => simp [selectFirstMax] at h
  | cons p rest =>
    simp only [selectFirstMax, Option.some.injEq] at h
    exact h ▸ le_firstMaxFrom f p rest

theorem selectFirstMax_split {f : ResidentialProxy → ℚ}
    {l : List ResidentialProxy} {w : ResidentialProxy}
    (h : selectFirstMax f l = some w) :
    ∃ l₁ l₂, l = l₁ ++ w :: l₂ ∧ ∀ q ∈ l₁, f q < f w := by
  cases l with
  | nil => simp [selectFirstMax] at h
  | cons p rest =>
    simp only [selectFirstMax, Option.some.injEq] at h
    exact h ▸ firstMaxFrom_split f p rest

/-! ### Helper lemmas about the candidate and viable sets -/

theorem lookup_mem {l : List (String × List ResidentialProxy)} {k : String}
    {v : List ResidentialProxy} (h : l.lookup k = some v) : (k, v) ∈ l := by
  induction l with
  | nil => simp [List.lookup] at h
  | cons kv rest ih =>
    obtain ⟨a, b⟩ := kv
    rw [List.lookup] at h
    by_cases hk : (k == a) = true
    · simp only [hk, Option.some.injEq] at h
      have ha : k = a := by simpa using hk
      subst ha
      subst h
      exact List.mem_cons_self _ _
    · rw [Bool.not_eq_true] at hk
      simp only [hk] at h
      exact List.mem_cons_of_mem _ (ih h)

theorem viability_health {tl : ℚ} {p : ResidentialProxy}
    (h : viabilityFilter tl p = true) : healthOnlyFilter p = true :=
  (Bool.and_eq_true _ _ |>.mp h).1

theorem candidates_subset_pool {r : AdvancedProxyRotator}
    (hinv : r.bucketsSubPool) (ts : Option String) :
    ∀ p ∈ r.candidates ts, p ∈ r.proxy_pool := by
  intro p hp
  unfold AdvancedProxyRotator.candidates at hp
  split at hp
  · split at hp
    · exact hp
    · split at hp
      · rename_i heq
        exact hinv _ (lookup_mem heq) p hp
      · exact hp
  · exact hp

theorem mem_viableSet_healthy {r : AdvancedProxyRotator} {ts : Option String}
    {tl : ℚ} {p : ResidentialProxy} (hp : p ∈ r.viableSet ts tl) :
    healthOnlyFilter p = true := by
  unfold AdvancedProxyRotator.viableSet at hp
  split at hp
  · exact (List.mem_filter.mp hp).2
  · exact viability_health (List.mem_filter.mp hp).2

theorem mem_viableSet_pool {r : AdvancedProxyRotator} {ts : Option String}
    {tl : ℚ} {p : ResidentialProxy} (hinv : r.bucketsSubPool)
    (hp : p ∈ r.viableSet ts tl) : p ∈ r.proxy_pool := by
  unfold AdvancedProxyRotator.viableSet at hp
  split at hp
  · exact (List.mem_filter.mp hp).1
  · exact candidates_subset_pool hinv ts p (List.mem_filter.mp hp).1

theorem viableSet_eq_nil_of_unhealthy {r : AdvancedProxyRotator}
    (hinv : r.bucketsSubPool) (ts : Option String) (tl : ℚ)
    (h : ∀ p ∈ r.proxy_pool, ¬healthOnlyFilter p = true) :
    r.viableSet ts tl = [] := by
  unfold AdvancedProxyRotator.viableSet
  have h₀ : (r.candidates ts).filter (viabilityFilter tl) = [] := by
    rw [List.filter_eq_nil_iff]
    intro p hp hv
    exact h p (candidates_subset_pool hinv ts p hp) (viability_health hv)
  rw [h₀]
  simp only [List.isEmpty_nil, if_true]
  rw [List.filter_eq_nil_iff]
  exact h

theorem unhealthy_of_viableSet_eq_nil {r : AdvancedProxyRotator}
    {ts : Option String} {tl : ℚ} (h : r.viableSet ts tl = []) :
    ∀ p ∈ r.proxy_pool, ¬healthOnlyFilter p = true := by
  unfold AdvancedProxyRotator.viableSet at h
  split at h
  · rw [List.filter_eq_nil_iff] at h
    exact h
  · rename_i hne
    rw [h] at hne
    simp at hne

theorem gopt_isSome_of_healthy {r : AdvancedProxyRotator}
    (hh : ∃ p ∈ r.proxy_pool, healthOnlyFilter p = true) (ts : Option String)
    (bt : Option SchoolBlockerType) (tl : ℚ) :
    ∃ w, r.get_optimal_proxy ts bt tl = some w := by
  unfold AdvancedProxyRotator.get_optimal_proxy
  cases hv : r.viableSet ts tl with
  | nil =>
    obtain ⟨p, hp, hhealthy⟩ := hh
    exact absurd hhealthy (unhealthy_of_viableSet_eq_nil hv p hp)
  | cons p rest => exact ⟨firstMaxFrom (fun p => p.score bt) p rest, rfl⟩

theorem chainAvail_ne_nil {r : AdvancedProxyRotator}
    {states : Option (List String)} {used : List String}
    (hkeys : r.stateKeys ≠ []) : chainAvail r states used ≠ [] := by
  unfold chainAvail
  split
  · exact hkeys
  · rename_i hne
    intro hnil
    rw [hnil] at hne
    simp at hne

theorem rotateChainAux_length {r : AdvancedProxyRotator}
    {bt : Option SchoolBlockerType} {states : Option (List String)}
    {picks : ℕ → ℕ} :
    ∀ (n i : ℕ) (used : List String) (acc chain : List ResidentialProxy),
      rotateChainAux r bt states picks n i used acc = some chain →
      chain.length = n + acc.length := by
  intro n
  induction n with
  | zero =>
    intro i used acc chain h
    simp only [rotateChainAux, Option.some.injEq] at h
    subst h
    simp
  | succ n ih =>
    intro i used acc chain h
    rw [rotateChainAux] at h
    split at h
    · exact absurd h (by simp)
    · split at h
      · exact absurd h (by simp)
      · have hlen := ih _ _ _ _ h
        rw [hlen, List.length_cons]
        omega

theorem rotateChainAux_total {r : AdvancedProxyRotator}
    {bt : Option SchoolBlockerType} {states : Option (List String)}
    {picks : ℕ → ℕ} (hkeys : r.stateKeys ≠ [])
    (hh : ∃ p ∈ r.proxy_pool, healthOnlyFilter p = true) :
    ∀ (n i : ℕ) (used : List String) (acc : List ResidentialProxy),
      ∃ chain, rotateChainAux r bt states picks n i used acc = some chain := by
  intro n
  induction n with
  | zero => exact fun i used acc => ⟨acc.reverse, rfl⟩
  | succ n ih =>
    intro i used acc
    have hA : chainAvail r states used ≠ [] := chainAvail_ne_nil hkeys
    have hlt : picks i % (chainAvail r states used).length <
        (chainAvail r states used).length :=
      Nat.mod_lt _ (List.length_pos.mpr hA)
    have hget : (chainAvail r states used).get?
        (picks i % (chainAvail r states used).length) =
        some ((chainAvail r states used).get ⟨_, hlt⟩) := List.get?_eq_get hlt
    obtain ⟨w, hw⟩ := gopt_isSome_of_healthy hh
      (some ((chainAvail r states used).get ⟨_, hlt⟩)) bt 200
    obtain ⟨chain, hchain⟩ := ih (i + 1)
      ((chainAvail r states used).get ⟨_, hlt⟩ :: used) (w :: acc)
    refine ⟨chain, ?_⟩
    rw [rotateChainAux]
    rw [hget]
    simp only [hw]
    exact hchain

theorem gopt_congr_score {r : AdvancedProxyRotator} {ts : Option String}
    {tl : ℚ} {bt₁ bt₂ : Option SchoolBlockerType}
    (h : ∀ p : ResidentialProxy, p.score bt₁ = p.score bt₂) :
    r.get_optimal_proxy ts bt₁ tl = r.get_optimal_proxy ts bt₂ tl := by
  unfold AdvancedProxyRotator.get_optimal_proxy
  rw [show (fun p : ResidentialProxy => p.score bt₁) =
      (fun p : ResidentialProxy => p.score bt₂) from funext h]

theorem ema_inf_left (x : EFloat) : EFloat.ema EFloat.inf x = EFloat.inf := by
  cases x <;> rfl

theorem ema_inf_right (x : EFloat) : EFloat.ema x EFloat.inf = EFloat.inf := by
  cases x <;> rfl

theorem forall₂_map_self {α β : Type _} (P : α → β → Prop) (f : α → β)
    (h : ∀ x, P x (f x)) : ∀ l : List α, List.Forall₂ P l (l.map f) := by
  intro l
  induction l with
  | nil => exact List.Forall₂.nil
  | cons x xs ih => exact List.Forall₂.cons (h x) ih

theorem markUsed_frame (w : ResidentialProxy) (now : ℚ)
    (x : ResidentialProxy) :
    sameExceptLastUsed (markUsed w now x) x ∧
      (x ≠ w → markUsed w now x = x) := by
  unfold markUsed
  by_cases hx : x = w
  · rw [if_pos hx]
    exact ⟨⟨rfl, rfl, rfl, rfl, rfl, rfl, rfl, rfl, rfl, rfl, rfl, rfl⟩,
      fun hne => absurd hx hne⟩
  · rw [if_neg hx]
    exact ⟨⟨rfl, rfl, rfl, rfl, rfl, rfl, rfl, rfl, rfl, rfl, rfl, rfl⟩,
      fun _ => rfl⟩

theorem blocker_score_bounds (p : ResidentialProxy)
    (bt : Option SchoolBlockerType) :
    0 ≤ p.calculate_blocker_score bt ∧ p.calculate_blocker_score bt ≤ 1 := by
  cases bt with
  | none => norm_num [ResidentialProxy.calculate_blocker_score]
  | some t =>
    simp only [ResidentialProxy.calculate_blocker_score]
    by_cases h1 : p.isp ∈ blockerPreferred t
    · rw [if_pos h1]
      norm_num
    · rw [if_neg h1]
      by_cases h2 : p.isp ∈ blockerAvoid t
      · rw [if_pos h2]
        norm_num
      · rw [if_neg h2]
        norm_num

theorem health_value_bounds (h : ProxyHealth) :
    (0 : ℚ) ≤ (h.value : ℚ) ∧ (h.value : ℚ) ≤ 4 := by
  cases h <;> simp [ProxyHealth.value] <;> norm_num

/-! ### Claim theorems -/

/-- C1: for every endpoint whose `success_rate` is in `[0,1]` and whose
(finite) `latency_ms = q` is `≥ 0`, and for every optional policy tag,
`score` equals `0.30*max(0, 1 - latency/5000) + 0.40*success_rate +
0.20*(health.ordinal/4) + 0.10*providerScore`, where the provider score
is `calculate_blocker_score` (1.0 on the tag's preferred list, 0.0 on its
avoided list, else 0.5, and always 0.5 without a tag); the result lies in
`[0,1]`. -/
theorem C1_score_weighted_sum_in_unit_interval :
    ∀ (p : ResidentialProxy) (bt : Option SchoolBlockerType) (q : ℚ),
      p.latency = EFloat.fin q → 0 ≤ q →
      0 ≤ p.success_rate → p.success_rate ≤ 1 →
      p.score bt =
        0.30 * max 0 (1 - q / 5000) + 0.40 * p.success_rate +
          0.20 * ((p.health.value : ℚ) / 4) +
          0.10 * p.calculate_blocker_score bt ∧
      0 ≤ p.score bt ∧ p.score bt ≤ 1 := by
  intro p bt q hlat hq hsr0 hsr1
  obtain ⟨hb0, hb1⟩ := blocker_score_bounds p bt
  obtain ⟨hh0, hh1⟩ := health_value_bounds p.health
  have hm0 : (0 : ℚ) ≤ max 0 (1 - q / 5000) := le_max_left _ _
  have hm1 : max 0 (1 - q / 5000) ≤ 1 := by
    have : q / 5000 ≥ 0 := div_nonneg hq (by norm_num)
    exact max_le (by norm_num) (by linarith)
  simp only [ResidentialProxy.score, hlat, EFloat.latencyScore]
  refine ⟨by ring, by linarith, by linarith⟩

/-- C1 witness: the concrete endpoint `pO` under the IBOSS tag. -/
theorem C1_witness :
    pO.score (some SchoolBlockerType.iboss) =
      0.30 * max 0 (1 - 100 / 5000) + 0.40 * pO.success_rate +
        0.20 * ((pO.health.value : ℚ) / 4) +
        0.10 * pO.calculate_blocker_score (some SchoolBlockerType.iboss) ∧
    0 ≤ pO.score (some SchoolBlockerType.iboss) ∧
    pO.score (some SchoolBlockerType.iboss) ≤ 1 :=
  C1_score_weighted_sum_in_unit_interval pO (some SchoolBlockerType.iboss) 100
    rfl (by norm_num) (by norm_num [pO]) (by norm_num [pO])

/-- C4 counterexample: after the probe cycle `(3 attempted, 3 successes,
300 ms total)` on an endpoint with prior `success_rate = 0`, the code
classifies EXCELLENT (from the raw cycle rate 1.0), while classifying
from the updated (post-smoothing) `success_rate = 0.3` as the claim
states would give POOR. -/
theorem C4_counterexample :
    (healthCheckUpdate p4 3 3 300).health = ProxyHealth.excellent ∧
    (healthCheckUpdate p4 3 3 300).success_rate = 0.3 ∧
    classifyHealth (healthCheckUpdate p4 3 3 300).success_rate
        (healthCheckUpdate p4 3 3 300).latency = ProxyHealth.poor ∧
    ProxyHealth.excellent ≠ ProxyHealth.poor := by
  have hsr : (healthCheckUpdate p4 3 3 300).success_rate = 0.3 := by
    norm_num [healthCheckUpdate, p4]
  have hlat : (healthCheckUpdate p4 3 3 300).latency = EFloat.fin 100 := by
    norm_num [healthCheckUpdate, p4, EFloat.ema]
  refine ⟨?_, hsr, ?_, by decide⟩
  · norm_num [healthCheckUpdate, p4, EFloat.ema, EFloat.ltQ]
  · rw [hsr, hlat]
    norm_num [classifyHealth, EFloat.ltQ]

/-- C4 (amended): after every probe cycle, the new health state is
computed by the threshold ladder from the RAW cycle success rate
(`success_count/attempted`, not the smoothed value) together with the
updated (post-smoothing) latency. -/
theorem C4_amended_health_from_raw_rate :
    ∀ (p : ResidentialProxy) (attempted success_count : ℕ)
      (total_latency : ℚ),
      (healthCheckUpdate p attempted success_count total_latency).health =
        classifyHealth
          (if attempted = 0 then 0
           else (success_count : ℚ) / (attempted : ℚ))
          (healthCheckUpdate p attempted success_count
            total_latency).latency := by
  intro p a s tl
  rfl

/-- C7: a probe cycle with `attempted ≠ 0` and at least one success
updates the metrics by exponential smoothing:
`success_rate' = 0.7*success_rate + 0.3*(successes/attempted)` and
`latency_ms' = 0.7*latency_ms + 0.3*(total_latency/successes)`
(the second factor being the mean latency of successful probes). -/
theorem C7_smoothing_update :
    ∀ (p : ResidentialProxy) (L : ℚ) (attempted success_count : ℕ)
      (total_latency : ℚ),
      p.latency = EFloat.fin L → attempted ≠ 0 → success_count ≠ 0 →
      (healthCheckUpdate p attempted success_count
          total_latency).success_rate =
        0.7 * p.success_rate +
          0.3 * ((success_count : ℚ) / (attempted : ℚ)) ∧
      (healthCheckUpdate p attempted success_count total_latency).latency =
        EFloat.fin
          (0.7 * L + 0.3 * (total_latency / (success_count : ℚ))) := by
  intro p L a s tl hlat ha hs
  constructor
  · simp [healthCheckUpdate, ha]
  · simp [healthCheckUpdate, ha, hs, hlat, EFloat.ema]

/-- C7 witness: the spec scenario — 2 of 3 probes succeed at 50 ms and
100 ms (total 150 ms), prior `success_rate = 0.5`, `latency_ms = 200`;
the updated values are 0.55 and 162.5, and health reclassifies to
DEGRADED. -/
theorem C7_witness :
    (healthCheckUpdate p7 3 2 150).success_rate = 0.55 ∧
    (healthCheckUpdate p7 3 2 150).latency = EFloat.fin 162.5 ∧
    (healthCheckUpdate p7 3 2 150).health = ProxyHealth.degraded := by
  have h := C7_smoothing_update p7 200 3 2 150 rfl (by norm_num) (by norm_num)
  refine ⟨?_, ?_, ?_⟩
  · rw [h.1]
    norm_num [p7]
  · rw [h.2]
    norm_num
  · norm_num [healthCheckUpdate, p7, EFloat.ema, EFloat.ltQ]

/-- C8: a probe cycle with zero successes drives `latency_ms` to the
`+∞` sentinel; `+∞` is absorbing under every further smoothing update;
an endpoint at `+∞` latency has latency score 0 (its score reduces to
the other three weighted terms); and its health can never again be
classified EXCELLENT or GOOD. -/
theorem C8_infinite_latency_absorbing :
    (∀ (p : ResidentialProxy) (attempted : ℕ) (total_latency : ℚ),
        (healthCheckUpdate p attempted 0 total_latency).latency =
          EFloat.inf) ∧
    (∀ (p : ResidentialProxy) (attempted success_count : ℕ)
        (total_latency : ℚ),
        p.latency = EFloat.inf →
        (healthCheckUpdate p attempted success_count total_latency).latency =
          EFloat.inf) ∧
    (∀ (p : ResidentialProxy) (bt : Option SchoolBlockerType),
        p.latency = EFloat.inf →
        EFloat.latencyScore p.latency = 0 ∧
        p.score bt = p.success_rate * 0.4 +
          (p.health.value : ℚ) * 0.25 * 0.2 +
          p.calculate_blocker_score bt * 0.1) ∧
    (∀ (p : ResidentialProxy) (attempted success_count : ℕ)
        (total_latency : ℚ),
        p.latency = EFloat.inf →
        (healthCheckUpdate p attempted success_count total_latency).health ≠
            ProxyHealth.excellent ∧
        (healthCheckUpdate p attempted success_count total_latency).health ≠
            ProxyHealth.good) := by
  refine ⟨?_, ?_, ?_, ?_⟩
  · intro p a tl
    simp [healthCheckUpdate, ema_inf_right]
  · intro p a s tl h
    simp [healthCheckUpdate, h, ema_inf_left]
  · intro p bt h
    constructor
    · rw [h]
      rfl
    · simp only [ResidentialProxy.score, h]
      rw [show EFloat.latencyScore EFloat.inf = 0 from rfl]
      ring
  · intro p a s tl h
    constructor <;>
      simp [healthCheckUpdate, h, ema_inf_left, EFloat.ltQ] <;>
        (repeat' split) <;> decide

/-- C8 witness: concrete zero-success and already-infinite cases. -/
theorem C8_witness :
    (healthCheckUpdate p4 3 0 0).latency = EFloat.inf ∧
    (healthCheckUpdate pInf 3 2 100).latency = EFloat.inf ∧
    EFloat.latencyScore pInf.latency = 0 ∧
    (healthCheckUpdate pInf 3 3 100).health ≠ ProxyHealth.excellent :=
  ⟨C8_infinite_latency_absorbing.1 p4 3 0,
    C8_infinite_latency_absorbing.2.1 pInf 3 2 100 rfl,
    (C8_infinite_latency_absorbing.2.2.1 pInf none rfl).1,
    (C8_infinite_latency_absorbing.2.2.2 pInf 3 3 100 rfl).1⟩

/-- C5: `get_optimal_proxy` raises `NoViableEndpoint` (returns `none`)
iff no endpoint anywhere in the pool has `health ≥ DEGRADED` (under the
registry invariant that region buckets are part of the pool); whenever it
returns an endpoint, that endpoint has `health ≥ DEGRADED`. -/
theorem C5_none_iff_no_healthy_endpoint :
    ∀ (r : AdvancedProxyRotator) (ts : Option String)
      (bt : Option SchoolBlockerType) (tl : ℚ),
      r.bucketsSubPool →
      ((r.get_optimal_proxy ts bt tl = none ↔
          ∀ p ∈ r.proxy_pool,
            p.health.value < ProxyHealth.degraded.value) ∧
        ∀ w, r.get_optimal_proxy ts bt tl = some w →
          ProxyHealth.degraded.value ≤ w.health.value) := by
  intro r ts bt tl hinv
  have hhf : ∀ p : ResidentialProxy,
      healthOnlyFilter p = true ↔
        ProxyHealth.degraded.value ≤ p.health.value := by
    intro p
    simp [healthOnlyFilter]
  refine ⟨⟨?_, ?_⟩, ?_⟩
  · intro hnone p hp
    unfold AdvancedProxyRotator.get_optimal_proxy at hnone
    rw [selectFirstMax_eq_none_iff] at hnone
    have hnh := unhealthy_of_viableSet_eq_nil hnone p hp
    exact lt_of_not_le fun hle => hnh ((hhf p).mpr hle)
  · intro hall
    unfold AdvancedProxyRotator.get_optimal_proxy
    rw [selectFirstMax_eq_none_iff]
    apply viableSet_eq_nil_of_unhealthy hinv
    intro p hp hpf
    exact absurd ((hhf p).mp hpf) (not_le.mpr (hall p hp))
  · intro w hw
    unfold AdvancedProxyRotator.get_optimal_proxy at hw
    exact (hhf w).mp (mem_viableSet_healthy (selectFirstMax_mem hw))

/-- C5 witness: in the all-DEAD registry `rDead`, selection fails with
no viable endpoint. -/
theorem C5_witness : rDead.get_optimal_proxy none none 200 = none :=
  (C5_none_iff_no_healthy_endpoint rDead none none 200 (by
      intro kv hkv p hp
      simp only [rDead, List.mem_cons, List.not_mem_nil, or_false] at hkv
      rcases hkv with rfl | rfl <;>
        · simp only [List.mem_singleton] at hp
          subst hp
          simp [rDead])).1.mpr (by
    intro p hp
    simp only [rDead, List.mem_cons, List.not_mem_nil, or_false] at hp
    rcases hp with rfl | rfl <;> decide)

/-- C2 counterexample: in registry `r2` the hinted bucket `texas` holds
the healthy endpoint `pT` (which only fails the 200 ms ceiling), yet
`get_optimal_proxy` hinted at `texas` returns `pO` from the `ohio`
bucket: the fallback is NOT restricted to the hinted bucket. -/
theorem C2_counterexample :
    r2.proxies_by_state.lookup (pyLower "texas") = some [pT] ∧
    healthOnlyFilter pT = true ∧
    ([pT].filter (viabilityFilter 200)).isEmpty = true ∧
    r2.get_optimal_proxy (some "texas") none 200 = some pO ∧
    pT.state = "texas" ∧
    pO.state = "ohio" ∧
    pO ∉ [pT] := by
  have hlt : pT.score none < pO.score none := by
    norm_num [ResidentialProxy.score, ResidentialProxy.calculate_blocker_score,
      EFloat.latencyScore, ProxyHealth.value, pT, pO, max_def]
  have hvs : r2.viableSet (some "texas") 200 = [pT, pO] := by
    unfold AdvancedProxyRotator.viableSet
    rw [show r2.candidates (some "texas") = [pT] from rfl]
    rw [show List.filter (viabilityFilter 200) [pT] = [] from rfl]
    simp only [List.isEmpty_nil, if_true]
    rfl
  refine ⟨rfl, rfl, rfl, ?_, rfl, rfl, ?_⟩
  · unfold AdvancedProxyRotator.get_optimal_proxy
    rw [hvs]
    simp only [selectFirstMax, firstMaxFrom]
    rw [if_pos hlt]
  · simp [pT, pO]

/-- C2 (amended): when the hinted bucket exists but none of its endpoints
passes the health-and-latency viability filter, the fallback set is the
health-filtered ENTIRE pool (not the hinted bucket), and the selected
endpoint is the first maximal scorer of that pool-wide set — it may lie
outside the hinted region even when the hinted bucket still contains
endpoints with `health ≥ DEGRADED`. -/
theorem C2_amended_fallback_is_pool_wide :
    ∀ (r : AdvancedProxyRotator) (ts : String)
      (bt : Option SchoolBlockerType) (tl : ℚ)
      (bucket : List ResidentialProxy),
      ts ≠ "" →
      r.proxies_by_state.lookup (pyLower ts) = some bucket →
      (bucket.filter (viabilityFilter tl)).isEmpty = true →
      r.proxy_pool.filter healthOnlyFilter ≠ [] →
      ∃ w, r.get_optimal_proxy (some ts) bt tl = some w ∧
        w ∈ r.proxy_pool.filter healthOnlyFilter ∧
        ∀ q ∈ r.proxy_pool.filter healthOnlyFilter,
          q.score bt ≤ w.score bt := by
  intro r ts bt tl bucket hts hlook hempty hpool
  have hcand : r.candidates (some ts) = bucket := by
    simp only [AdvancedProxyRotator.candidates]
    rw [if_neg hts, hlook]
  have hvs : r.viableSet (some ts) tl =
      r.proxy_pool.filter healthOnlyFilter := by
    unfold AdvancedProxyRotator.viableSet
    rw [hcand, hempty]
    simp only [if_true]
  obtain ⟨p, rest, hfp⟩ :
      ∃ p rest, r.proxy_pool.filter healthOnlyFilter = p :: rest := by
    cases hfp2 : r.proxy_pool.filter healthOnlyFilter with
    | nil => exact absurd hfp2 hpool
    | cons a l => exact ⟨a, l, rfl⟩
  refine ⟨firstMaxFrom (fun x => x.score bt) p rest, ?_, ?_, ?_⟩
  · unfold AdvancedProxyRotator.get_optimal_proxy
    rw [hvs, hfp]
    rfl
  · rw [hfp]
    exact firstMaxFrom_mem _ p rest
  · intro q hq
    rw [hfp] at hq
    exact le_firstMaxFrom (fun x => x.score bt) p rest q hq

/-- C2 witness: the amended fallback behaviour on the concrete registry
`r2` hinted at `texas`. -/
theorem C2_witness :
    ∃ w, r2.get_optimal_proxy (some "texas") none 200 = some w ∧
      w ∈ r2.proxy_pool.filter healthOnlyFilter ∧
      ∀ q ∈ r2.proxy_pool.filter healthOnlyFilter,
        q.score none ≤ w.score none :=
  C2_amended_fallback_is_pool_wide r2 "texas" none 200 [pT]
    (by decide) rfl rfl
    (by
      rw [show List.filter healthOnlyFilter r2.proxy_pool = [pT, pO] from rfl]
      exact List.cons_ne_nil _ _)

theorem r3_scores_tie : pA.score none = pB.score none := by
  norm_num [ResidentialProxy.score, ResidentialProxy.calculate_blocker_score,
    EFloat.latencyScore, ProxyHealth.value, pA, pB, max_def]

theorem r3_viableSet_eq : r3.viableSet none 200 = [pA, pB] := by
  unfold AdvancedProxyRotator.viableSet
  rw [show List.filter (viabilityFilter 200) (r3.candidates none) =
      [pA, pB] from rfl]
  rfl

theorem r3_select_eq : r3.get_optimal_proxy none none 200 = some pA := by
  unfold AdvancedProxyRotator.get_optimal_proxy
  rw [r3_viableSet_eq]
  simp only [selectFirstMax, firstMaxFrom]
  rw [if_neg (by rw [r3_scores_tie]; exact lt_irrefl _)]

/-- C3 counterexample: `pA` and `pB` have identical scores, `pB` has the
strictly lower latency, yet selection returns the first-inserted `pA`:
there is no lowest-latency tie-break. -/
theorem C3_counterexample :
    pA.score none = pB.score none ∧
    pA.latency = EFloat.fin 200 ∧
    pB.latency = EFloat.fin 100 ∧
    viabilityFilter 200 pA = true ∧
    viabilityFilter 200 pB = true ∧
    r3.proxy_pool = [pA, pB] ∧
    r3.get_optimal_proxy none none 200 = some pA ∧
    pA ≠ pB :=
  ⟨r3_scores_tie, rfl, rfl, rfl, rfl, rfl, r3_select_eq, by simp [pA, pB]⟩

/-- C3 (amended): for every non-empty surviving candidate set, selection
returns the FIRST candidate in surviving-set order (registry insertion
order) attaining the maximal score: every earlier candidate scores
strictly less, and equal-score later candidates lose regardless of their
latency.  The selection is a pure function, hence deterministic. -/
theorem C3_amended_first_max_wins :
    ∀ (r : AdvancedProxyRotator) (ts : Option String)
      (bt : Option SchoolBlockerType) (tl : ℚ) (w : ResidentialProxy),
      r.get_optimal_proxy ts bt tl = some w →
      w ∈ r.viableSet ts tl ∧
      (∀ q ∈ r.viableSet ts tl, q.score bt ≤ w.score bt) ∧
      ∃ l₁ l₂, r.viableSet ts tl = l₁ ++ w :: l₂ ∧
        ∀ q ∈ l₁, q.score bt < w.score bt := by
  intro r ts bt tl w hw
  unfold AdvancedProxyRotator.get_optimal_proxy at hw
  exact ⟨selectFirstMax_mem hw, le_selectFirstMax hw, selectFirstMax_split hw⟩

/-- C3 witness: the amended first-maximum property instantiated on the
tied registry `r3`. -/
theorem C3_witness :
    pA ∈ r3.viableSet none 200 ∧
    (∀ q ∈ r3.viableSet none 200, q.score none ≤ pA.score none) ∧
    ∃ l₁ l₂, r3.viableSet none 200 = l₁ ++ pA :: l₂ ∧
      ∀ q ∈ l₁, q.score none < pA.score none :=
  C3_amended_first_max_wins r3 none none 200 pA r3_select_eq

theorem r6_select_a_eq : r6.get_optimal_proxy (some "a") none 200 =
    some pB6 := by
  have hlt : pA6.score none < pB6.score none := by
    norm_num [ResidentialProxy.score, ResidentialProxy.calculate_blocker_score,
      EFloat.latencyScore, ProxyHealth.value, pA6, pB6, max_def]
  have hvs : r6.viableSet (some "a") 200 = [pA6, pB6] := by
    unfold AdvancedProxyRotator.viableSet
    rw [show r6.candidates (some "a") = [pA6] from rfl]
    rw [show List.filter (viabilityFilter 200) [pA6] = [] from rfl]
    simp only [List.isEmpty_nil, if_true]
    rfl
  unfold AdvancedProxyRotator.get_optimal_proxy
  rw [hvs]
  simp only [selectFirstMax, firstMaxFrom]
  rw [if_pos hlt]

/-- C6 counterexample: in the two-region registry `r6`, a 2-hop chain over
candidate regions `["a", "b"]` returns `[pB6, pB6]` — both hops are the
region-`b` endpoint although a distinct unused region remained available
at each hop (hop 1 targeted `a`, but the viability fallback escaped to
the pool-wide best endpoint, which lives in `b`). -/
theorem C6_counterexample :
    r6.stateKeys = ["a", "b"] ∧
    r6.rotate_proxy_chain 2 (some ["a", "b"]) none (fun _ => 0) =
      some [pB6, pB6] ∧
    pB6.state = "b" := by
  refine ⟨rfl, ?_, rfl⟩
  show rotateChainAux r6 none (some ["a", "b"]) (fun _ => 0) 2 0 [] [] =
    some [pB6, pB6]
  rw [show rotateChainAux r6 none (some ["a", "b"]) (fun _ => 0) 2 0 [] [] =
      (match r6.get_optimal_proxy (some "a") none 200 with
       | none => none
       | some p =>
         rotateChainAux r6 none (some ["a", "b"]) (fun _ => 0) 1 1 ["a"] [p])
      from rfl]
  rw [r6_select_a_eq]
  rfl

/-- C6 (amended): `rotate_proxy_chain` returns exactly `n` hops and never
fails while the registry has at least one region and some endpoint
pool-wide has `health ≥ DEGRADED`.  The no-repeat discipline governs only
the randomly targeted regions: a hop's actual endpoint may come from an
already-used region through the pool-wide viability fallback, and once
every region has been targeted the full key list is reused (regions
repeat) rather than the call failing. -/
theorem C6_amended_chain_length_and_totality :
    ∀ (r : AdvancedProxyRotator),
      r.stateKeys ≠ [] →
      (∃ p ∈ r.proxy_pool, healthOnlyFilter p = true) →
      ∀ (n : ℕ) (states : Option (List String))
        (bt : Option SchoolBlockerType) (picks : ℕ → ℕ),
        ∃ chain, r.rotate_proxy_chain n states bt picks = some chain ∧
          chain.length = n := by
  intro r hkeys hh n states bt picks
  obtain ⟨chain, hchain⟩ := rotateChainAux_total hkeys hh n 0 [] []
  refine ⟨chain, hchain, ?_⟩
  have := rotateChainAux_length n 0 [] [] chain hchain
  simpa using this

/-- C6 witness: a 3-hop chain over the two-region registry `r6` succeeds
with exactly 3 hops. -/
theorem C6_witness :
    ∃ chain, r6.rotate_proxy_chain 3 none none (fun i => i) = some chain ∧
      chain.length = 3 :=
  C6_amended_chain_length_and_totality r6 (by decide)
    ⟨pB6, by simp [r6], rfl⟩ 3 none none (fun i => i)

/-- C9: a successful selection only stamps the winner's `last_used`
(every other field of the winner, every field of every other endpoint,
and the region partition keys are unchanged), and a probe update only
rewrites `latency`, `success_rate` and `health` (identity, credential and
`last_used` fields are unchanged). -/
theorem C9_frame_conditions :
    (∀ (r : AdvancedProxyRotator) (ts : Option String)
        (bt : Option SchoolBlockerType) (tl now : ℚ)
        (w' : ResidentialProxy) (r' : AdvancedProxyRotator),
        r.get_optimal_proxy_run ts bt tl now = some (w', r') →
        ∃ w, r.get_optimal_proxy ts bt tl = some w ∧
          sameExceptLastUsed w' w ∧ w'.last_used = now ∧
          List.Forall₂
            (fun pOld pNew => sameExceptLastUsed pNew pOld ∧
              (pOld ≠ w → pNew = pOld))
            r.proxy_pool r'.proxy_pool ∧
          r'.proxies_by_state.map Prod.fst =
            r.proxies_by_state.map Prod.fst ∧
          List.Forall₂
            (fun kvOld kvNew => kvOld.1 = kvNew.1 ∧
              List.Forall₂
                (fun pOld pNew => sameExceptLastUsed pNew pOld ∧
                  (pOld ≠ w → pNew = pOld))
                kvOld.2 kvNew.2)
            r.proxies_by_state r'.proxies_by_state) ∧
    (∀ (p : ResidentialProxy) (attempted success_count : ℕ)
        (total_latency : ℚ),
        sameIdentity
          (healthCheckUpdate p attempted success_count total_latency) p) := by
  constructor
  · intro r ts bt tl now w' r' h
    unfold AdvancedProxyRotator.get_optimal_proxy_run at h
    cases hg : r.get_optimal_proxy ts bt tl with
    | none =>
      rw [hg] at h
      exact absurd h (by simp)
    | some w =>
      rw [hg] at h
      simp only [Option.some.injEq, Prod.mk.injEq] at h
      obtain ⟨hw', hr'⟩ := h
      subst hw'
      subst hr'
      refine ⟨w, rfl, ?_, rfl, ?_, ?_, ?_⟩
      · exact ⟨rfl, rfl, rfl, rfl, rfl, rfl, rfl, rfl, rfl, rfl, rfl, rfl⟩
      · exact forall₂_map_self
          (fun pOld pNew => sameExceptLastUsed pNew pOld ∧
            (pOld ≠ w → pNew = pOld))
          (markUsed w now) (markUsed_frame w now) r.proxy_pool
      · rw [List.map_map]
        rfl
      · exact forall₂_map_self
          (fun kvOld kvNew => kvOld.1 = kvNew.1 ∧
            List.Forall₂
              (fun pOld pNew => sameExceptLastUsed pNew pOld ∧
                (pOld ≠ w → pNew = pOld))
              kvOld.2 kvNew.2)
          (fun kv => (kv.1, kv.2.map (markUsed w now)))
          (fun kv => ⟨rfl,
            forall₂_map_self
              (fun pOld pNew => sameExceptLastUsed pNew pOld ∧
                (pOld ≠ w → pNew = pOld))
              (markUsed w now) (markUsed_frame w now) kv.2⟩)
          r.proxies_by_state
  · intro p a s tl
    exact ⟨rfl, rfl, rfl, rfl, rfl, rfl, rfl, rfl, rfl, rfl⟩

theorem pB_ne_pA : ¬pB = pA := by simp [pA, pB]

theorem r3_run_eq :
    r3.get_optimal_proxy_run none none 200 5 = some (pA5, r3') := by
  unfold AdvancedProxyRotator.get_optimal_proxy_run
  rw [r3_select_eq]
  have h1 : markUsed pA 5 pA = pA5 := by
    unfold markUsed
    rw [if_pos rfl]
    rfl
  have h2 : markUsed pA 5 pB = pB := by
    unfold markUsed
    rw [if_neg pB_ne_pA]
  rw [show r3.proxy_pool = [pA, pB] from rfl,
    show r3.proxies_by_state = [("alpha", [pA]), ("beta", [pB])] from rfl]
  simp only [List.map_cons, List.map_nil, h1, h2]
  rfl

/-- C9 witness: the frame condition instantiated on the concrete
selection `r3 → r3'` stamping `pA` at instant 5. -/
theorem C9_witness :
    ∃ w, r3.get_optimal_proxy none none 200 = some w ∧
      sameExceptLastUsed pA5 w ∧ pA5.last_used = 5 ∧
      List.Forall₂
        (fun pOld pNew => sameExceptLastUsed pNew pOld ∧
          (pOld ≠ w → pNew = pOld))
        r3.proxy_pool r3'.proxy_pool ∧
      r3'.proxies_by_state.map Prod.fst =
        r3.proxies_by_state.map Prod.fst ∧
      List.Forall₂
        (fun kvOld kvNew => kvOld.1 = kvNew.1 ∧
          List.Forall₂
            (fun pOld pNew => sameExceptLastUsed pNew pOld ∧
              (pOld ≠ w → pNew = pOld))
            kvOld.2 kvNew.2)
        r3.proxies_by_state r3'.proxies_by_state :=
  C9_frame_conditions.1 r3 none none 200 5 pA5 r3' r3_run_eq

/-- C10: each of the six tags without a preference table (LIGHTSPEED,
BARKLY, SMOOTHWALL, FORTIGUARD, SONICWALL, PALOALTO) yields provider
score 0.5 for every endpoint and the default 200 ms ceiling, so both
`score` and the tag-specialised selection coincide with the untagged
ones. -/
theorem C10_six_tags_neutral :
    ∀ t : SchoolBlockerType,
      t ∈ [SchoolBlockerType.lightspeed, SchoolBlockerType.barkly,
           SchoolBlockerType.smoothwall, SchoolBlockerType.fortiguard,
           SchoolBlockerType.sonicwall, SchoolBlockerType.paloalto] →
      (∀ p : ResidentialProxy, p.calculate_blocker_score (some t) = 0.5) ∧
      blocker_latencies t = 200 ∧
      (∀ p : ResidentialProxy, p.score (some t) = p.score none) ∧
      (∀ (r : AdvancedProxyRotator) (ts : Option String),
        r.get_proxy_for_school_blocker t ts =
          r.get_optimal_proxy ts none 200) := by
  intro t ht
  have hand : ∀ p : ResidentialProxy,
      p.calculate_blocker_score (some t) = 0.5 := by
    intro p
    fin_cases ht <;>
      simp [ResidentialProxy.calculate_blocker_score, blockerPreferred,
        blockerAvoid]
  have hlat : blocker_latencies t = 200 := by
    fin_cases ht <;> rfl
  have hscore : ∀ p : ResidentialProxy, p.score (some t) = p.score none := by
    intro p
    simp only [ResidentialProxy.score, hand p,
      show (∀ q : ResidentialProxy, q.calculate_blocker_score none = 0.5)
        from fun q => rfl]
  refine ⟨hand, hlat, hscore, ?_⟩
  intro r ts
  unfold AdvancedProxyRotator.get_proxy_for_school_blocker
  rw [hlat]
  exact gopt_congr_score hscore

/-- C10 witness: the neutrality facts instantiated at the LIGHTSPEED
tag. -/
theorem C10_witness :
    (∀ p : ResidentialProxy,
      p.calculate_blocker_score (some SchoolBlockerType.lightspeed) = 0.5) ∧
    blocker_latencies SchoolBlockerType.lightspeed = 200 ∧
    (∀ p : ResidentialProxy,
      p.score (some SchoolBlockerType.lightspeed) = p.score none) ∧
    (∀ (r : AdvancedProxyRotator) (ts : Option String),
      r.get_proxy_for_school_blocker SchoolBlockerType.lightspeed ts =
        r.get_optimal_proxy ts none 200) :=
  C10_six_tags_neutral SchoolBlockerType.lightspeed (by simp)

end ProxyRotator
